import Mathlib

/-!
Verification development for the recursive Whitted-style ray tracer whose core
lives in src/src/RayTracer.cpp.  The data model (Vector, Color, Ray, Material,
Intersection, Light, Camera) is declared only in headers that are not part of
the repository snapshot, so those types are modelled from the specification;
every function on them is translated directly from RayTracer.cpp.  Doubles are
modelled as real numbers.
-/

namespace RT

noncomputable section

/-- Modelled from the spec: Vector has 3 real components with add, subtract,
scalar-multiply, dot product, normalize and length (missing Vector.h). -/
structure Vector where
  x : ℝ
  y : ℝ
  z : ℝ

instance : Add Vector := ⟨fun a b => ⟨a.x + b.x, a.y + b.y, a.z + b.z⟩⟩

instance : Sub Vector := ⟨fun a b => ⟨a.x - b.x, a.y - b.y, a.z - b.z⟩⟩

instance : HMul Vector ℝ Vector := ⟨fun v s => ⟨v.x * s, v.y * s, v.z * s⟩⟩

instance : Neg Vector := ⟨fun v => ⟨-v.x, -v.y, -v.z⟩⟩

/-- Modelled from the spec: dot product of two vectors. -/
def Vector.dot (a b : Vector) : ℝ :=
  a.x * b.x + a.y * b.y + a.z * b.z

/-- Modelled from the spec: euclidean length of a vector. -/
def Vector.length (v : Vector) : ℝ :=
  Real.sqrt (v.dot v)

/-- Modelled from the spec: normalize returns a unit vector except for the zero
vector (degenerate; division by a zero length is the zero vector here). -/
def Vector.normalize (v : Vector) : Vector :=
  v * (1 / v.length)

@[simp] theorem Vector.vecAdd_mk (a b c d e f : ℝ) :
    (Vector.mk a b c) + (Vector.mk d e f) = ⟨a + d, b + e, c + f⟩ := rfl

@[simp] theorem Vector.vecSub_mk (a b c d e f : ℝ) :
    (Vector.mk a b c) - (Vector.mk d e f) = ⟨a - d, b - e, c - f⟩ := rfl

@[simp] theorem Vector.vecMul_mk (a b c s : ℝ) :
    (Vector.mk a b c) * s = ⟨a * s, b * s, c * s⟩ := rfl

@[simp] theorem Vector.vecDot_mk (a b c d e f : ℝ) :
    (Vector.mk a b c).dot ⟨d, e, f⟩ = a * d + b * e + c * f := rfl

/-- Modelled from the spec: Color has 3 real channels (no alpha) with add and
scalar-multiply; the default Color value is the zero/background color. -/
structure Color where
  r : ℝ
  g : ℝ
  b : ℝ

instance : Add Color := ⟨fun a b => ⟨a.r + b.r, a.g + b.g, a.b + b.b⟩⟩

instance : HMul Color ℝ Color := ⟨fun c s => ⟨c.r * s, c.g * s, c.b * s⟩⟩

@[simp] theorem Color.colAdd_mk (a b c d e f : ℝ) :
    (Color.mk a b c) + (Color.mk d e f) = ⟨a + d, b + e, c + f⟩ := rfl

@[simp] theorem Color.colMul_mk (a b c s : ℝ) :
    (Color.mk a b c) * s = ⟨a * s, b * s, c * s⟩ := rfl

theorem Color.add_zero_right (c : Color) : c + Color.mk 0 0 0 = c := by
  cases c; simp

theorem Color.zero_add_left (c : Color) : Color.mk 0 0 0 + c = c := by
  cases c; simp

theorem Color.mul_one_right (c : Color) : c * (1 : ℝ) = c := by
  cases c; simp

/-- Modelled from the spec: sentinel for a material that is not shiny. -/
def NOT_SHINY : ℝ := -1

/-- Modelled from the spec: sentinel for a material that is not reflective. -/
def NOT_REFLECTIVE : ℝ := -1

/-- Modelled from the spec: sentinel for a material that is not refractive. -/
def NOT_REFRACTIVE : ℝ := -1

/-- Modelled from the spec: the refractive index of air, the medium primary
rays start in. -/
def AIR_REFRACTIVE_INDEX : ℝ := 1

/-- Modelled from the spec: a Ray is an origin, a direction, a remaining-bounce
counter and the refractive index of the medium the ray travels through
(missing Ray.h). -/
structure Ray where
  origin : Vector
  direction : Vector
  reflectionsRemaining : Int
  refractiveIndex : ℝ

/-- Modelled from the spec: Material answers color-at-hit-point, shininess,
reflectivity and refractive index, the last three possibly sentinels
(missing Material.h and its variants). -/
structure Material where
  colorAt : Vector → Color
  shininess : ℝ
  reflectivity : ℝ
  refractiveIndex : ℝ

/-- Modelled from the spec: an Intersection is a hit flag, distance along the
ray, world-space hit point, surface normal, material reference and the
originating ray (missing Intersection.h). -/
structure Intersection where
  didIntersect : Bool
  distance : ℝ
  intersection : Vector
  normal : Vector
  material : Material
  ray : Ray

/-- Modelled from the spec: the resolved color at the hit point, delegated to
the material variant. -/
def Intersection.getColor (i : Intersection) : Color :=
  i.material.colorAt i.intersection

/-- Modelled from the spec: a point light with a position and a scalar
intensity multiplier (missing Light.h). -/
structure Light where
  position : Vector
  intensity : ℝ

/-- Modelled from the spec: an Object answers a nearest self-intersection for a
ray through the polymorphic intersect capability; the returned Intersection
references the originating ray (missing Object.h, and Sphere.cpp for the only
implemented variant). -/
structure Object where
  intersect : Ray → Intersection
  intersect_ray : ∀ r, (intersect r).ray = r

/-- Modelled from the spec: camera position, look-at target, up hint and the
derived orthonormal basis u, v, w (missing Camera.h). -/
structure Camera where
  position : Vector
  lookAt : Vector
  up : Vector
  u : Vector
  v : Vector
  w : Vector

/-- The RayTracer rendering context of RayTracer.h: scene objects and lights
plus the global parameters read by the translated functions.  The raysCast
diagnostic counter is omitted (spec section 5: diagnostic only, not part of
the render result). -/
structure RayTracer where
  width : Int
  height : Int
  maxReflections : Int
  superSamples : Int
  camera : Camera
  imageScale : ℝ
  depthComplexity : Int
  dispersion : ℝ
  objects : List Object
  lights : List Light

/-- The value of numeric_limits max for double, used as the sentinel distance
of a no-hit intersection (RayTracer.cpp line 132). -/
def maxDouble : ℝ := (2 ^ 53 - 1) * 2 ^ 971

/-- Modelled from the spec: the Intersection built by the constructor taking a
false hit flag, with default remaining fields (RayTracer.cpp line 131); the
distance is then overwritten with the maximal sentinel at line 132. -/
def defaultMaterial : Material :=
  ⟨fun _ => ⟨0, 0, 0⟩, 0, 0, 0⟩

/-- The no-hit accumulator that getClosestIntersection starts from
(RayTracer.cpp lines 131 and 132). -/
def noHitIntersection : Intersection :=
  ⟨false, maxDouble, ⟨0, 0, 0⟩, ⟨0, 0, 0⟩, defaultMaterial, ⟨⟨0, 0, 0⟩, ⟨0, 0, 0⟩, 0, 0⟩⟩

/-- Translation of RayTracer::getClosestIntersection (RayTracer.cpp lines
130 to 144): fold over every object keeping the hit with the strictly
smallest distance, starting from a no-hit result at the maximal distance.
The intersection local of the loop body is inlined. -/
def getClosestIntersection (rt : RayTracer) (ray : Ray) : Intersection :=
  rt.objects.foldl
    (fun closestIntersection obj =>
      if (obj.intersect ray).didIntersect = true ∧
          (obj.intersect ray).distance < closestIntersection.distance then
        obj.intersect ray
      else
        closestIntersection)
    noHitIntersection

/-- Translation of the loop body of RayTracer::isInShadow (RayTracer.cpp lines
119 to 127): scan the objects and return true as soon as one intersects
strictly closer than the light distance; the intersection local is inlined. -/
def isInShadowScan (ray : Ray) (lightDistance : ℝ) : List Object → Bool
  | [] => false
  | obj :: rest =>
    if (obj.intersect ray).didIntersect = true ∧
        (obj.intersect ray).distance < lightDistance then
      true
    else
      isInShadowScan ray lightDistance rest

/-- Translation of RayTracer::isInShadow (RayTracer.cpp lines 118 to 128). -/
def isInShadow (rt : RayTracer) (ray : Ray) (lightDistance : ℝ) : Bool :=
  isInShadowScan ray lightDistance rt.objects

/-- Translation of RayTracer::reflectVector (RayTracer.cpp lines 325 to 327). -/
def reflectVector (vector normal : Vector) : Vector :=
  normal * (2 : ℝ) * vector.dot normal - vector

/-- Translation of RayTracer::getReflectance (RayTracer.cpp lines 293 to 308):
ratio-form Fresnel reflectance, 1 on total internal reflection. -/
def getReflectance (normal incident : Vector) (n1 n2 : ℝ) : ℝ :=
  let n := n1 / n2
  let cosI := -(normal.dot incident)
  let sinT2 := n * n * (1 - cosI * cosI)
  if sinT2 > 1 then
    1
  else
    let cosT := Real.sqrt (1 - sinT2)
    let r0rth := (n1 * cosI - n2 * cosT) / (n1 * cosI + n2 * cosT)
    let rPar := (n2 * cosI - n1 * cosT) / (n2 * cosI + n1 * cosT)
    (r0rth * r0rth + rPar * rPar) / 2

/-- Translation of RayTracer::getAmbientLighting (RayTracer.cpp lines 155
to 157). -/
def getAmbientLighting (_intersection : Intersection) (color : Color) : Color :=
  color * (0.2 : ℝ)

/-- Translation of RayTracer::getSpecularLighting (RayTracer.cpp lines 197
to 224). -/
def getSpecularLighting (intersection : Intersection) (light : Light) : Color :=
  let shininess := intersection.material.shininess
  if shininess = NOT_SHINY then
    ⟨0, 0, 0⟩
  else
    let view := (intersection.ray.origin - intersection.intersection).normalize
    let lightOffset := light.position - intersection.intersection
    let reflected := reflectVector lightOffset.normalize intersection.normal
    let d := view.dot reflected
    if d ≤ 0 then
      ⟨0, 0, 0⟩
    else
      let specularAmount := d ^ shininess * light.intensity
      ⟨specularAmount, specularAmount, specularAmount⟩

/-- Translation of RayTracer::getDiffuseAndSpecularLighting (RayTracer.cpp
lines 159 to 195): fold over all lights with a pair accumulator of diffuse and
specular colors; note that line 188 multiplies the whole accumulated diffuse
color, not just the current contribution, by the light intensity. -/
def getDiffuseAndSpecularLighting (rt : RayTracer) (intersection : Intersection)
    (color : Color) : Color :=
  let acc := rt.lights.foldl
    (fun (acc : Color × Color) light =>
      let diffuseColor := acc.1
      let specularColor := acc.2
      let lightOffset := light.position - intersection.intersection
      let lightDistance := lightOffset.length
      let lightDirection := lightOffset.normalize
      let dotProduct := intersection.normal.dot lightDirection
      if dotProduct ≥ 0 then
        let shadowRay : Ray :=
          ⟨intersection.intersection, lightDirection, 1, intersection.ray.refractiveIndex⟩
        if isInShadow rt shadowRay lightDistance = true then
          (diffuseColor, specularColor)
        else
          ((diffuseColor + color * dotProduct) * light.intensity,
           specularColor + getSpecularLighting intersection light)
      else
        (diffuseColor, specularColor))
    (⟨0, 0, 0⟩, ⟨0, 0, 0⟩)
  acc.1 + acc.2

/-- Invariant preservation along a list fold. -/
theorem foldl_invariant {α β : Type} (f : β → α → β) (P : β → Prop)
    (l : List α) (init : β) (h0 : P init)
    (hstep : ∀ b a, a ∈ l → P b → P (f b a)) : P (l.foldl f init) := by
  induction l generalizing init with
  | nil => exact h0
  | cons a l ih =>
    exact ih (f init a) (hstep init a (by simp) h0)
      (fun b a2 ha hb => hstep b a2 (by simp [ha]) hb)

/-- A hit produced by getClosestIntersection references the originating ray:
the accumulator starts as a non-hit and is only ever replaced by the result of
an object intersect call on the queried ray. -/
theorem getClosestIntersection_ray (rt : RayTracer) (ray : Ray)
    (h : (getClosestIntersection rt ray).didIntersect = true) :
    (getClosestIntersection rt ray).ray = ray := by
  unfold getClosestIntersection at h ⊢
  refine foldl_invariant _
    (fun c => c.didIntersect = true → c.ray = ray) rt.objects noHitIntersection
    ?_ ?_ h
  · intro hfalse
    simp [noHitIntersection] at hfalse
  · intro b a _ hb
    dsimp only
    by_cases hc : (a.intersect ray).didIntersect = true ∧
        (a.intersect ray).distance < b.distance
    · rw [if_pos hc]
      intro _
      exact a.intersect_ray ray
    · rw [if_neg hc]
      exact hb

mutual

/-- Translation of RayTracer::castRay (RayTracer.cpp lines 103 to 112); the
raysCast diagnostic increment is omitted. -/
def castRay (rt : RayTracer) (ray : Ray) : Color :=
  let intersection := getClosestIntersection rt ray
  if h : intersection.didIntersect = true then
    performLighting rt intersection
  else
    ⟨0, 0, 0⟩
termination_by (ray.reflectionsRemaining.toNat, 2)
decreasing_by
  rw [getClosestIntersection_ray rt ray h]
  exact Prod.Lex.right _ (by norm_num)

/-- Translation of RayTracer::performLighting (RayTracer.cpp lines 146
to 153). -/
def performLighting (rt : RayTracer) (intersection : Intersection) : Color :=
  let color := intersection.getColor
  let ambientColor := getAmbientLighting intersection color
  let diffuseAndSpecularColor := getDiffuseAndSpecularLighting rt intersection color
  let reflectedColor := getReflectiveRefractiveLighting rt intersection
  ambientColor + diffuseAndSpecularColor + reflectedColor
termination_by (intersection.ray.reflectionsRemaining.toNat, 1)
decreasing_by
  exact Prod.Lex.right _ (by norm_num)

/-- Translation of RayTracer::getReflectiveRefractiveLighting (RayTracer.cpp
lines 226 to 291).  The refraction block at lines 268 to 287 is entirely
commented out in the source, so refractiveColor keeps its default zero
value. -/
def getReflectiveRefractiveLighting (rt : RayTracer) (intersection : Intersection) : Color :=
  let reflectivity := intersection.material.reflectivity
  let refractiveIndex := intersection.material.refractiveIndex
  let reflectionsRemaining := intersection.ray.reflectionsRemaining
  if h : (reflectivity = NOT_REFLECTIVE ∧ refractiveIndex = NOT_REFRACTIVE) ∨
      reflectionsRemaining ≤ 0 then
    ⟨0, 0, 0⟩
  else
    let reflectivePercentage :=
      if refractiveIndex ≠ NOT_REFRACTIVE then
        getReflectance intersection.normal intersection.ray.direction
          AIR_REFRACTIVE_INDEX refractiveIndex
      else
        reflectivity
    let refractivePercentage : ℝ :=
      if refractiveIndex ≠ NOT_REFRACTIVE then 1 - reflectivePercentage else 0
    if refractivePercentage ≤ 0 ∧ reflectivePercentage ≤ 0 then
      ⟨0, 0, 0⟩
    else
      let reflectiveColor : Color :=
        if reflectivePercentage > 0 then
          let reflected := reflectVector intersection.ray.origin intersection.normal
          let reflectedRay : Ray :=
            ⟨intersection.intersection, reflected, reflectionsRemaining - 1,
             intersection.ray.refractiveIndex⟩
          castRay rt reflectedRay * reflectivity
        else
          ⟨0, 0, 0⟩
      let refractiveColor : Color := ⟨0, 0, 0⟩
      reflectiveColor + refractiveColor
termination_by (intersection.ray.reflectionsRemaining.toNat, 0)
decreasing_by
  simp_wf
  apply Prod.Lex.left
  push_neg at h
  omega

end

end

end RT

namespace RT

noncomputable section

/-- Modelled from the spec: the RAND_MAX constant of the C library used to
scale rand() draws (value of glibc). -/
def RAND_MAX : ℝ := 2147483647

/-- Translation of RayTracer::castRayAtPoint (RayTracer.cpp lines 79 to 101).
The pseudo-random rand() stream is modelled from the spec as an explicit
sequence rng of draw values: iteration i consumes draws 2i and 2i+1, matching
the two independent uniform values drawn per dispersion sample. -/
def castRayAtPoint (rt : RayTracer) (rng : ℕ → ℝ) (point : Vector) : Color :=
  (List.range rt.depthComplexity.toNat).foldl
    (fun color i =>
      let viewRay : Ray :=
        ⟨rt.camera.position, point - rt.camera.position, rt.maxReflections,
         AIR_REFRACTIVE_INDEX⟩
      let viewRay :=
        if rt.depthComplexity > 1 then
          let disturbance : Vector :=
            ⟨rt.dispersion / RAND_MAX * (1 * rng (2 * i)),
             rt.dispersion / RAND_MAX * (1 * rng (2 * i + 1)), 0⟩
          let origin := viewRay.origin + disturbance
          let direction := (point - origin).normalize
          { viewRay with origin := origin, direction := direction }
        else
          viewRay
      color + castRay rt viewRay * (1 / (rt.depthComplexity : ℝ)))
    ⟨0, 0, 0⟩

/-- Translation of the depth-complexity reset that RayTracer::traceRays
performs before rendering (RayTracer.cpp lines 32 to 35); the rest of
traceRays is pixel iteration and image output, outside the core contract. -/
def traceRaysSetup (rt : RayTracer) : RayTracer :=
  if rt.dispersion < 0 then { rt with depthComplexity := 1 } else rt

mutual

/-- Fuel-indexed variant of castRay: identical to the translation of
RayTracer.cpp lines 103 to 112 except that the nesting of
reflective/refractive recursion is bounded structurally by the fuel
argument instead of by the bounce counter of the ray. -/
def castRayFuel (rt : RayTracer) (fuel : ℕ) (ray : Ray) : Color :=
  let intersection := getClosestIntersection rt ray
  if intersection.didIntersect = true then
    let color := intersection.getColor
    let ambientColor := getAmbientLighting intersection color
    let diffuseAndSpecularColor := getDiffuseAndSpecularLighting rt intersection color
    let reflectedColor := getReflectiveRefractiveLightingFuel rt fuel intersection
    ambientColor + diffuseAndSpecularColor + reflectedColor
  else
    ⟨0, 0, 0⟩
termination_by (fuel, 1)

/-- Fuel-indexed variant of getReflectiveRefractiveLighting: identical to the
translation of RayTracer.cpp lines 226 to 291 except that each recursive
reflective call consumes one unit of fuel, and a call with no fuel left at the
recursion point returns the zero color. -/
def getReflectiveRefractiveLightingFuel (rt : RayTracer) (fuel : ℕ)
    (intersection : Intersection) : Color :=
  let reflectivity := intersection.material.reflectivity
  let refractiveIndex := intersection.material.refractiveIndex
  let reflectionsRemaining := intersection.ray.reflectionsRemaining
  if (reflectivity = NOT_REFLECTIVE ∧ refractiveIndex = NOT_REFRACTIVE) ∨
      reflectionsRemaining ≤ 0 then
    ⟨0, 0, 0⟩
  else
    let reflectivePercentage :=
      if refractiveIndex ≠ NOT_REFRACTIVE then
        getReflectance intersection.normal intersection.ray.direction
          AIR_REFRACTIVE_INDEX refractiveIndex
      else
        reflectivity
    let refractivePercentage : ℝ :=
      if refractiveIndex ≠ NOT_REFRACTIVE then 1 - reflectivePercentage else 0
    if refractivePercentage ≤ 0 ∧ reflectivePercentage ≤ 0 then
      ⟨0, 0, 0⟩
    else
      let reflectiveColor : Color :=
        if reflectivePercentage > 0 then
          let reflected := reflectVector intersection.ray.origin intersection.normal
          let reflectedRay : Ray :=
            ⟨intersection.intersection, reflected, reflectionsRemaining - 1,
             intersection.ray.refractiveIndex⟩
          if hf : fuel = 0 then
            ⟨0, 0, 0⟩
          else
            castRayFuel rt (fuel - 1) reflectedRay * reflectivity
        else
          ⟨0, 0, 0⟩
      let refractiveColor : Color := ⟨0, 0, 0⟩
      reflectiveColor + refractiveColor
termination_by (fuel, 0)
decreasing_by
  apply Prod.Lex.left
  omega

end

/-- Modelled from the spec: the full (non-short-circuiting) scan that the
shadow test must agree with, visiting every object and combining the
per-object blocked tests with a boolean or. -/
def isInShadowFullScan (rt : RayTracer) (ray : Ray) (lightDistance : ℝ) : Bool :=
  rt.objects.foldl
    (fun found obj =>
      found || ((obj.intersect ray).didIntersect &&
        decide ((obj.intersect ray).distance < lightDistance)))
    false

/-- Modelled from the spec: the diffuse term of section 4.3, the sum over all
lights that face the surface and are not blocked of the resolved color times
max 0 of the dot of normal and light direction, times the intensity of that
light alone. -/
def diffuseLightingSpec (rt : RayTracer) (intersection : Intersection)
    (color : Color) : Color :=
  rt.lights.foldl
    (fun diffuseColor light =>
      let lightOffset := light.position - intersection.intersection
      let lightDistance := lightOffset.length
      let lightDirection := lightOffset.normalize
      let dotProduct := intersection.normal.dot lightDirection
      if dotProduct ≥ 0 then
        let shadowRay : Ray :=
          ⟨intersection.intersection, lightDirection, 1, intersection.ray.refractiveIndex⟩
        if isInShadow rt shadowRay lightDistance = true then
          diffuseColor
        else
          diffuseColor + (color * (max 0 dotProduct)) * light.intensity
      else
        diffuseColor)
    ⟨0, 0, 0⟩

/-- The reflective contribution of getReflectiveRefractiveLighting taken alone
(RayTracer.cpp lines 227 to 266): the same guards, energy split and reflected
ray, without the refractive color added at line 290. -/
def reflectiveLightingAlone (rt : RayTracer) (intersection : Intersection) : Color :=
  let reflectivity := intersection.material.reflectivity
  let refractiveIndex := intersection.material.refractiveIndex
  let reflectionsRemaining := intersection.ray.reflectionsRemaining
  if (reflectivity = NOT_REFLECTIVE ∧ refractiveIndex = NOT_REFRACTIVE) ∨
      reflectionsRemaining ≤ 0 then
    ⟨0, 0, 0⟩
  else
    let reflectivePercentage :=
      if refractiveIndex ≠ NOT_REFRACTIVE then
        getReflectance intersection.normal intersection.ray.direction
          AIR_REFRACTIVE_INDEX refractiveIndex
      else
        reflectivity
    let refractivePercentage : ℝ :=
      if refractiveIndex ≠ NOT_REFRACTIVE then 1 - reflectivePercentage else 0
    if refractivePercentage ≤ 0 ∧ reflectivePercentage ≤ 0 then
      ⟨0, 0, 0⟩
    else
      if reflectivePercentage > 0 then
        let reflected := reflectVector intersection.ray.origin intersection.normal
        let reflectedRay : Ray :=
          ⟨intersection.intersection, reflected, reflectionsRemaining - 1,
           intersection.ray.refractiveIndex⟩
        castRay rt reflectedRay * reflectivity
      else
        ⟨0, 0, 0⟩

end

end RT

namespace RT

/-- Helper for claim C3 and the concrete scenes: adding the zero color on the
right is the identity, so the refractive color contributes nothing. -/
theorem add_zero_color (c : Color) : c + ⟨0, 0, 0⟩ = c := Color.add_zero_right c

/-- Claim C3: for every intersection the refractive contribution of
getReflectiveRefractiveLighting is zero and the returned color equals the
reflective contribution alone, even when the material has a refractive index
and the computed refractive percentage is positive. -/
theorem getRRL_refraction_contributes_nothing (rt : RayTracer) (intersection : Intersection) :
    getReflectiveRefractiveLighting rt intersection =
      reflectiveLightingAlone rt intersection := by
  simp only [getReflectiveRefractiveLighting, reflectiveLightingAlone]
  by_cases h1 : (intersection.material.reflectivity = NOT_REFLECTIVE ∧
      intersection.material.refractiveIndex = NOT_REFRACTIVE) ∨
      intersection.ray.reflectionsRemaining ≤ 0
  · rw [dif_pos h1, if_pos h1]
  · rw [dif_neg h1, if_neg h1]
    split_ifs <;> first | rfl | exact Color.add_zero_right _

/-- Claim C8: for any ray for which no object in the scene reports an
intersection, castRay returns the zero background color, a valid non-error
outcome. -/
theorem castRay_miss_returns_background (rt : RayTracer) (ray : Ray)
    (h : ∀ o ∈ rt.objects, (o.intersect ray).didIntersect = false) :
    castRay rt ray = ⟨0, 0, 0⟩ := by
  have hI : (getClosestIntersection rt ray).didIntersect = false := by
    unfold getClosestIntersection
    refine foldl_invariant _ (fun c => c.didIntersect = false) rt.objects
      noHitIntersection rfl ?_
    intro b a ha hb
    dsimp only
    rw [if_neg]
    · exact hb
    · rintro ⟨hc1, -⟩
      rw [h a ha] at hc1
      exact Bool.noConfusion hc1
  rw [castRay]
  simp [hI]

def cam0 : Camera := ⟨⟨0, 0, 0⟩, ⟨0, 0, 0⟩, ⟨0, 0, 0⟩, ⟨0, 0, 0⟩, ⟨0, 0, 0⟩, ⟨0, 0, 0⟩⟩

def rtEmpty : RayTracer := ⟨8, 8, 10, 1, cam0, 1, 1, 5, [], []⟩

def rayW : Ray := ⟨⟨0, 0, 0⟩, ⟨0, 0, 1⟩, 3, AIR_REFRACTIVE_INDEX⟩

/-- Witness for claim C8 at a concrete empty scene and ray. -/
theorem castRay_miss_returns_background_witness :
    (∀ o ∈ rtEmpty.objects, (o.intersect rayW).didIntersect = false) ∧
    castRay rtEmpty rayW = ⟨0, 0, 0⟩ :=
  ⟨by simp [rtEmpty], castRay_miss_returns_background rtEmpty rayW (by simp [rtEmpty])⟩

/-- Claim C9: getReflectance returns exactly 1 on total internal reflection,
that is whenever the squared refracted sine exceeds 1. -/
theorem getReflectance_total_internal_reflection (normal incident : Vector) (n1 n2 : ℝ)
    (h : (n1 / n2) ^ 2 * (1 - normal.dot incident ^ 2) > 1) :
    getReflectance normal incident n1 n2 = 1 := by
  have hc : n1 / n2 * (n1 / n2) *
      (1 - -normal.dot incident * -normal.dot incident) > 1 := by
    have e : n1 / n2 * (n1 / n2) * (1 - -normal.dot incident * -normal.dot incident)
        = (n1 / n2) ^ 2 * (1 - normal.dot incident ^ 2) := by ring
    rw [e]
    exact h
  simp only [getReflectance]
  rw [if_pos hc]

/-- Witness for claim C9: a dense-to-thin interface at grazing incidence. -/
theorem getReflectance_total_internal_reflection_witness :
    ((2 : ℝ) / 1) ^ 2 * (1 - (Vector.mk 0 0 1).dot ⟨1, 0, 0⟩ ^ 2) > 1 ∧
    getReflectance ⟨0, 0, 1⟩ ⟨1, 0, 0⟩ 2 1 = 1 :=
  ⟨by norm_num, getReflectance_total_internal_reflection _ _ _ _ (by norm_num)⟩

/-- Helper for claim C10: the square of a ratio of a difference over a sum of
two nonnegative reals is at most 1, division by zero counting as zero. -/
theorem ratio_sq_le_one {a b : ℝ} (ha : 0 ≤ a) (hb : 0 ≤ b) :
    (a - b) / (a + b) * ((a - b) / (a + b)) ≤ 1 := by
  rcases eq_or_lt_of_le (add_nonneg ha hb) with heq | hpos
  · rw [← heq]
    simp
  · have habs : (a - b) * (a - b) ≤ (a + b) * (a + b) := by nlinarith
    rw [div_mul_div_comm]
    exact div_le_one_of_le₀ habs (by positivity)

/-- Claim C10: for positive refractive indices and a cosine of incidence in
the unit interval, getReflectance lies in the unit interval, so the refracted
fraction 1 minus reflectance is never negative. -/
theorem getReflectance_unit_interval (normal incident : Vector) (n1 n2 : ℝ)
    (h1 : 0 < n1) (h2 : 0 < n2) (h3 : 0 ≤ -normal.dot incident)
    (h4 : -normal.dot incident ≤ 1) :
    0 ≤ getReflectance normal incident n1 n2 ∧
    getReflectance normal incident n1 n2 ≤ 1 := by
  simp only [getReflectance]
  by_cases hT : n1 / n2 * (n1 / n2) *
      (1 - -normal.dot incident * -normal.dot incident) > 1
  · rw [if_pos hT]
    norm_num
  · rw [if_neg hT]
    have hcosT : 0 ≤ Real.sqrt (1 - n1 / n2 * (n1 / n2) *
        (1 - -normal.dot incident * -normal.dot incident)) := Real.sqrt_nonneg _
    have ha1 : 0 ≤ n1 * -normal.dot incident := mul_nonneg h1.le h3
    have hb1 : 0 ≤ n2 * Real.sqrt (1 - n1 / n2 * (n1 / n2) *
        (1 - -normal.dot incident * -normal.dot incident)) := mul_nonneg h2.le hcosT
    have ha2 : 0 ≤ n2 * -normal.dot incident := mul_nonneg h2.le h3
    have hb2 : 0 ≤ n1 * Real.sqrt (1 - n1 / n2 * (n1 / n2) *
        (1 - -normal.dot incident * -normal.dot incident)) := mul_nonneg h1.le hcosT
    have hr := ratio_sq_le_one ha1 hb1
    have hp := ratio_sq_le_one ha2 hb2
    have hrn := mul_self_nonneg ((n1 * -normal.dot incident - n2 * Real.sqrt (1 -
        n1 / n2 * (n1 / n2) * (1 - -normal.dot incident * -normal.dot incident))) /
        (n1 * -normal.dot incident + n2 * Real.sqrt (1 - n1 / n2 * (n1 / n2) *
        (1 - -normal.dot incident * -normal.dot incident))))
    have hpn := mul_self_nonneg ((n2 * -normal.dot incident - n1 * Real.sqrt (1 -
        n1 / n2 * (n1 / n2) * (1 - -normal.dot incident * -normal.dot incident))) /
        (n2 * -normal.dot incident + n1 * Real.sqrt (1 - n1 / n2 * (n1 / n2) *
        (1 - -normal.dot incident * -normal.dot incident))))
    constructor
    · linarith
    · linarith

/-- Witness for claim C10 at a head-on air-to-glass interface. -/
theorem getReflectance_unit_interval_witness :
    0 ≤ getReflectance ⟨0, 0, 1⟩ ⟨0, 0, -1⟩ 1 2 ∧
    getReflectance ⟨0, 0, 1⟩ ⟨0, 0, -1⟩ 1 2 ≤ 1 :=
  getReflectance_unit_interval _ _ _ _ (by norm_num) (by norm_num)
    (by norm_num) (by norm_num)

end RT

namespace RT

/-- Helper: the closest-hit fold never increases the running distance. -/
theorem closestFold_distance_le (ray : Ray) :
    ∀ (l : List Object) (c : Intersection),
      (l.foldl (fun closestIntersection obj =>
        if (obj.intersect ray).didIntersect = true ∧
            (obj.intersect ray).distance < closestIntersection.distance then
          obj.intersect ray
        else
          closestIntersection) c).distance ≤ c.distance := by
  intro l
  induction l with
  | nil => intro c; exact le_rfl
  | cons a l ih =>
    intro c
    rw [List.foldl_cons]
    refine le_trans (ih _) ?_
    dsimp only
    by_cases hc : (a.intersect ray).didIntersect = true ∧
        (a.intersect ray).distance < c.distance
    · rw [if_pos hc]
      exact hc.2.le
    · rw [if_neg hc]

/-- Helper: the closest-hit fold result distance is at most the distance of
every reported hit of the list. -/
theorem closestFold_min (ray : Ray) :
    ∀ (l : List Object) (c : Intersection) (o : Object), o ∈ l →
      (o.intersect ray).didIntersect = true →
      (l.foldl (fun closestIntersection obj =>
        if (obj.intersect ray).didIntersect = true ∧
            (obj.intersect ray).distance < closestIntersection.distance then
          obj.intersect ray
        else
          closestIntersection) c).distance ≤ (o.intersect ray).distance := by
  intro l
  induction l with
  | nil =>
    intro c o ho
    exact absurd ho (List.not_mem_nil o)
  | cons a l ih =>
    intro c o ho hhit
    rw [List.foldl_cons]
    rcases List.mem_cons.mp ho with rfl | ho2
    · refine le_trans (closestFold_distance_le ray l _) ?_
      dsimp only
      by_cases hc : (o.intersect ray).didIntersect = true ∧
          (o.intersect ray).distance < c.distance
      · rw [if_pos hc]
      · rw [if_neg hc]
        push_neg at hc
        exact hc hhit
    · exact ih _ o ho2 hhit

/-- Helper: with no reported hit the closest-hit fold returns its accumulator
unchanged. -/
theorem closestFold_no_hit (ray : Ray) :
    ∀ (l : List Object) (c : Intersection),
      (∀ o ∈ l, (o.intersect ray).didIntersect = false) →
      l.foldl (fun closestIntersection obj =>
        if (obj.intersect ray).didIntersect = true ∧
            (obj.intersect ray).distance < closestIntersection.distance then
          obj.intersect ray
        else
          closestIntersection) c = c := by
  intro l
  induction l with
  | nil => intro c _; rfl
  | cons a l ih =>
    intro c h
    simp only [List.foldl_cons]
    have ha : (if (a.intersect ray).didIntersect = true ∧
        (a.intersect ray).distance < c.distance then a.intersect ray else c) = c := by
      rw [if_neg]
      rintro ⟨hc1, -⟩
      rw [h a (List.mem_cons_self a l)] at hc1
      exact Bool.noConfusion hc1
    rw [ha]
    exact ih c (fun o ho => h o (List.mem_cons_of_mem a ho))

/-- Helper: the closest-hit fold result is either the accumulator or the
intersection reported by some hitting object of the list. -/
theorem closestFold_cases (ray : Ray) :
    ∀ (l : List Object) (c : Intersection),
      l.foldl (fun closestIntersection obj =>
        if (obj.intersect ray).didIntersect = true ∧
            (obj.intersect ray).distance < closestIntersection.distance then
          obj.intersect ray
        else
          closestIntersection) c = c ∨
      ∃ o ∈ l, (o.intersect ray).didIntersect = true ∧
        l.foldl (fun closestIntersection obj =>
          if (obj.intersect ray).didIntersect = true ∧
              (obj.intersect ray).distance < closestIntersection.distance then
            obj.intersect ray
          else
            closestIntersection) c = o.intersect ray := by
  intro l
  induction l with
  | nil => intro c; exact Or.inl rfl
  | cons a l ih =>
    intro c
    simp only [List.foldl_cons]
    rcases ih (if (a.intersect ray).didIntersect = true ∧
        (a.intersect ray).distance < c.distance then a.intersect ray else c) with
      h | ⟨o, ho, hh, heq⟩
    · by_cases hc : (a.intersect ray).didIntersect = true ∧
          (a.intersect ray).distance < c.distance
      · refine Or.inr ⟨a, List.mem_cons_self a l, hc.1, ?_⟩
        rw [h, if_pos hc]
      · refine Or.inl ?_
        rw [h, if_neg hc]
    · exact Or.inr ⟨o, List.mem_cons_of_mem a ho, hh, heq⟩

/-- Claim C5: getClosestIntersection returns, among the per-object
intersections that report a hit, one achieving the smallest distance; with no
hit at all it returns a result whose hit flag is false and whose distance is
the maximal sentinel.  The hypothesis asks every reported hit distance to be
below the sentinel, as produced by any real primitive. -/
theorem getClosestIntersection_nearest_hit (rt : RayTracer) (ray : Ray)
    (hbound : ∀ o ∈ rt.objects, (o.intersect ray).didIntersect = true →
      (o.intersect ray).distance < maxDouble) :
    ((∀ o ∈ rt.objects, (o.intersect ray).didIntersect = false) →
      (getClosestIntersection rt ray).didIntersect = false ∧
      (getClosestIntersection rt ray).distance = maxDouble) ∧
    ((∃ o ∈ rt.objects, (o.intersect ray).didIntersect = true) →
      (getClosestIntersection rt ray).didIntersect = true ∧
      (∃ o ∈ rt.objects, (o.intersect ray).didIntersect = true ∧
        getClosestIntersection rt ray = o.intersect ray) ∧
      (∀ o ∈ rt.objects, (o.intersect ray).didIntersect = true →
        (getClosestIntersection rt ray).distance ≤ (o.intersect ray).distance)) := by
  constructor
  · intro h
    have hfold := closestFold_no_hit ray rt.objects noHitIntersection h
    unfold getClosestIntersection
    rw [hfold]
    exact ⟨rfl, rfl⟩
  · rintro ⟨o₀, ho₀, hhit₀⟩
    have hmin : ∀ o ∈ rt.objects, (o.intersect ray).didIntersect = true →
        (getClosestIntersection rt ray).distance ≤ (o.intersect ray).distance := by
      intro o ho hh
      unfold getClosestIntersection
      exact closestFold_min ray rt.objects noHitIntersection o ho hh
    have hne : getClosestIntersection rt ray ≠ noHitIntersection := by
      intro heq
      have hle := hmin o₀ ho₀ hhit₀
      rw [heq] at hle
      have hlt := hbound o₀ ho₀ hhit₀
      have hsent : noHitIntersection.distance = maxDouble := rfl
      rw [hsent] at hle
      linarith
    rcases closestFold_cases ray rt.objects noHitIntersection with hc | ⟨o, ho, hh, heq⟩
    · exact absurd (by unfold getClosestIntersection; exact hc) hne
    · have hgci : getClosestIntersection rt ray = o.intersect ray := by
        unfold getClosestIntersection
        exact heq
      exact ⟨by rw [hgci]; exact hh, ⟨o, ho, hh, hgci⟩, hmin⟩

def objW : Object := ⟨fun r => ⟨true, 1, ⟨0, 0, 0⟩, ⟨0, 0, 1⟩, defaultMaterial, r⟩,
  fun _ => rfl⟩

def rtOne : RayTracer := ⟨8, 8, 10, 1, cam0, 1, 1, 5, [objW], []⟩

/-- Witness for claim C5 at a one-object scene whose object reports a hit at
distance 1. -/
theorem getClosestIntersection_nearest_hit_witness :
    (∀ o ∈ rtOne.objects, (o.intersect rayW).didIntersect = true →
      (o.intersect rayW).distance < maxDouble) ∧
    (((∀ o ∈ rtOne.objects, (o.intersect rayW).didIntersect = false) →
      (getClosestIntersection rtOne rayW).didIntersect = false ∧
      (getClosestIntersection rtOne rayW).distance = maxDouble) ∧
    ((∃ o ∈ rtOne.objects, (o.intersect rayW).didIntersect = true) →
      (getClosestIntersection rtOne rayW).didIntersect = true ∧
      (∃ o ∈ rtOne.objects, (o.intersect rayW).didIntersect = true ∧
        getClosestIntersection rtOne rayW = o.intersect rayW) ∧
      (∀ o ∈ rtOne.objects, (o.intersect rayW).didIntersect = true →
        (getClosestIntersection rtOne rayW).distance ≤ (o.intersect rayW).distance))) :=
  ⟨by
    intro o ho _
    simp only [rtOne, List.mem_singleton] at ho
    subst ho
    simp only [objW]
    norm_num [maxDouble],
   getClosestIntersection_nearest_hit rtOne rayW (by
    intro o ho _
    simp only [rtOne, List.mem_singleton] at ho
    subst ho
    simp only [objW]
    norm_num [maxDouble])⟩

end RT

namespace RT

/-- Helper: the short-circuiting shadow scan is true exactly when some object
of the list reports a hit strictly closer than the light distance. -/
theorem isInShadowScan_iff (ray : Ray) (d : ℝ) :
    ∀ l : List Object, isInShadowScan ray d l = true ↔
      ∃ o ∈ l, (o.intersect ray).didIntersect = true ∧
        (o.intersect ray).distance < d := by
  intro l
  induction l with
  | nil => simp [isInShadowScan]
  | cons a l ih =>
    rw [isInShadowScan]
    by_cases hc : (a.intersect ray).didIntersect = true ∧ (a.intersect ray).distance < d
    · rw [if_pos hc]
      exact iff_of_true rfl ⟨a, List.mem_cons_self a l, hc⟩
    · rw [if_neg hc, ih]
      constructor
      · rintro ⟨o, ho, hp⟩
        exact ⟨o, List.mem_cons_of_mem a ho, hp⟩
      · rintro ⟨o, ho, hp⟩
        rcases List.mem_cons.mp ho with rfl | ho2
        · exact absurd hp hc
        · exact ⟨o, ho2, hp⟩

/-- Helper: a fold that ors a predicate over a list is true exactly when the
start value is true or some element satisfies the predicate. -/
theorem foldl_or_eq_true (p : Object → Bool) :
    ∀ (l : List Object) (b : Bool),
      (l.foldl (fun found obj => found || p obj) b = true) ↔
        b = true ∨ ∃ o ∈ l, p o = true := by
  intro l
  induction l with
  | nil => intro b; simp
  | cons a l ih =>
    intro b
    rw [List.foldl_cons, ih]
    simp only [Bool.or_eq_true, List.mem_cons]
    constructor
    · rintro ((hb | hpa) | ⟨o, ho, hp⟩)
      · exact Or.inl hb
      · exact Or.inr ⟨a, Or.inl rfl, hpa⟩
      · exact Or.inr ⟨o, Or.inr ho, hp⟩
    · rintro (hb | ⟨o, ho | ho, hp⟩)
      · exact Or.inl (Or.inl hb)
      · exact Or.inl (Or.inr (ho ▸ hp))
      · exact Or.inr ⟨o, ho, hp⟩

/-- Helper: the full scan is true exactly when some object of the scene
reports a hit strictly closer than the light distance. -/
theorem isInShadowFullScan_iff (rt : RayTracer) (ray : Ray) (d : ℝ) :
    isInShadowFullScan rt ray d = true ↔
      ∃ o ∈ rt.objects, (o.intersect ray).didIntersect = true ∧
        (o.intersect ray).distance < d := by
  have h := foldl_or_eq_true
    (fun obj => (obj.intersect ray).didIntersect &&
      decide ((obj.intersect ray).distance < d)) rt.objects false
  have h2 : isInShadowFullScan rt ray d =
      rt.objects.foldl (fun found obj =>
        found || ((obj.intersect ray).didIntersect &&
          decide ((obj.intersect ray).distance < d))) false := rfl
  rw [h2, h]
  simp

/-- Claim C6: isInShadow is true exactly when some object reports a hit for
the shadow ray strictly closer than the light distance, and its early-exit
scan returns the same boolean as the full scan over all objects. -/
theorem isInShadow_iff_blocked (rt : RayTracer) (ray : Ray) (d : ℝ) :
    isInShadow rt ray d = isInShadowFullScan rt ray d ∧
    (isInShadow rt ray d = true ↔
      ∃ o ∈ rt.objects, (o.intersect ray).didIntersect = true ∧
        (o.intersect ray).distance < d) := by
  have h1 : isInShadow rt ray d = true ↔
      ∃ o ∈ rt.objects, (o.intersect ray).didIntersect = true ∧
        (o.intersect ray).distance < d := isInShadowScan_iff ray d rt.objects
  have h2 := isInShadowFullScan_iff rt ray d
  refine ⟨?_, h1⟩
  have h3 : isInShadow rt ray d = true ↔ isInShadowFullScan rt ray d = true :=
    h1.trans h2.symm
  cases hb : isInShadow rt ray d with
  | true => exact (h3.mp hb).symm
  | false =>
    cases hf : isInShadowFullScan rt ray d with
    | true =>
      rw [h3.mpr hf] at hb
      exact Bool.noConfusion hb
    | false => rfl

end RT

namespace RT

/-- Helper for claim C7: whenever the fuel is at least the nonnegative part of
the bounce budget of the traced ray, the fuel-indexed functions agree with the
budget-guarded recursive functions of RayTracer.cpp. -/
theorem fuel_agrees (rt : RayTracer) : ∀ fuel : ℕ,
    (∀ i : Intersection, i.ray.reflectionsRemaining.toNat ≤ fuel →
      getReflectiveRefractiveLightingFuel rt fuel i =
        getReflectiveRefractiveLighting rt i) ∧
    (∀ ray : Ray, ray.reflectionsRemaining.toNat ≤ fuel →
      castRayFuel rt fuel ray = castRay rt ray) := by
  intro fuel
  induction fuel with
  | zero =>
    have hrrl : ∀ i : Intersection, i.ray.reflectionsRemaining.toNat ≤ 0 →
        getReflectiveRefractiveLightingFuel rt 0 i =
          getReflectiveRefractiveLighting rt i := by
      intro i hi
      have hguard : (i.material.reflectivity = NOT_REFLECTIVE ∧
          i.material.refractiveIndex = NOT_REFRACTIVE) ∨
          i.ray.reflectionsRemaining ≤ 0 := Or.inr (by omega)
      simp only [getReflectiveRefractiveLightingFuel, getReflectiveRefractiveLighting]
      rw [if_pos hguard, dif_pos hguard]
    refine ⟨hrrl, ?_⟩
    intro ray hray
    simp only [castRayFuel, castRay, performLighting]
    by_cases hI : (getClosestIntersection rt ray).didIntersect = true
    · rw [if_pos hI, dif_pos hI,
        hrrl (getClosestIntersection rt ray)
          (by rw [getClosestIntersection_ray rt ray hI]; exact hray)]
    · rw [if_neg hI, dif_neg hI]
  | succ f ih =>
    have hrrl : ∀ i : Intersection, i.ray.reflectionsRemaining.toNat ≤ f + 1 →
        getReflectiveRefractiveLightingFuel rt (f + 1) i =
          getReflectiveRefractiveLighting rt i := by
      intro i hi
      by_cases hguard : (i.material.reflectivity = NOT_REFLECTIVE ∧
          i.material.refractiveIndex = NOT_REFRACTIVE) ∨
          i.ray.reflectionsRemaining ≤ 0
      · simp only [getReflectiveRefractiveLightingFuel, getReflectiveRefractiveLighting]
        rw [if_pos hguard, dif_pos hguard]
      · have hpos : 0 < i.ray.reflectionsRemaining := by
          push_neg at hguard
          omega
        have hrec := ih.2
          ⟨i.intersection, reflectVector i.ray.origin i.normal,
           i.ray.reflectionsRemaining - 1, i.ray.refractiveIndex⟩
          (by show (i.ray.reflectionsRemaining - 1).toNat ≤ f; omega)
        simp only [getReflectiveRefractiveLightingFuel, getReflectiveRefractiveLighting]
        rw [if_neg hguard, dif_neg hguard, dif_neg (Nat.succ_ne_zero f),
          Nat.add_sub_cancel, hrec]
    refine ⟨hrrl, ?_⟩
    intro ray hray
    simp only [castRayFuel, castRay, performLighting]
    by_cases hI : (getClosestIntersection rt ray).didIntersect = true
    · rw [if_pos hI, dif_pos hI,
        hrrl (getClosestIntersection rt ray)
          (by rw [getClosestIntersection_ray rt ray hI]; exact hray)]
    · rw [if_neg hI, dif_neg hI]

/-- Claim C7: castRay terminates for every scene and ray, and a bounce budget
of k permits at most k nested reflective steps: the fuel-indexed variant,
whose recursion depth is structurally bounded by the fuel and in which each
spawned reflected ray carries a budget of exactly one less than its parent
and recursion with no remaining budget is refused, computes the same color as
castRay when given the nonnegative part of the budget as fuel. -/
theorem castRay_recursion_bounded_by_budget (rt : RayTracer) (ray : Ray) :
    castRayFuel rt ray.reflectionsRemaining.toNat ray = castRay rt ray :=
  (fuel_agrees rt ray.reflectionsRemaining.toNat).2 ray le_rfl

end RT

namespace RT

def rt4bad : RayTracer := ⟨8, 8, 10, 1, cam0, 1, 2, 0, [], []⟩

def rt4good : RayTracer := ⟨8, 8, 10, 1, cam0, 1, 7, -1, [], []⟩

/-- Counterexample to claim C4 as stated: with dispersion exactly 0, which is
non-positive, the reset before rendering does not collapse the configured
depth complexity of 2 to 1, because the reset tests dispersion strictly
negative. -/
theorem dispersion_zero_not_collapsed :
    rt4bad.dispersion ≤ 0 ∧ (traceRaysSetup rt4bad).depthComplexity ≠ 1 := by
  constructor
  · norm_num [rt4bad]
  · norm_num [traceRaysSetup, rt4bad]

/-- Claim C4 as amended: whenever the dispersion radius is strictly negative,
the renderer collapses depth complexity to 1 before rendering, and then
exactly one unperturbed ray is cast per image-plane sub-sample, independent
of the random stream, regardless of the configured depthComplexity value;
at dispersion exactly 0 the configured depth complexity is kept. -/
theorem negative_dispersion_collapses_to_pinhole (rt : RayTracer)
    (h : rt.dispersion < 0) :
    (traceRaysSetup rt).depthComplexity = 1 ∧
    ∀ (rng : ℕ → ℝ) (point : Vector),
      castRayAtPoint (traceRaysSetup rt) rng point =
        castRay (traceRaysSetup rt)
          ⟨rt.camera.position, point - rt.camera.position, rt.maxReflections,
           AIR_REFRACTIVE_INDEX⟩ := by
  have hsetup : traceRaysSetup rt = { rt with depthComplexity := 1 } := by
    unfold traceRaysSetup
    rw [if_pos h]
  refine ⟨by rw [hsetup], ?_⟩
  intro rng point
  rw [hsetup]
  simp only [castRayAtPoint]
  norm_num [show List.range 1 = [0] from rfl, Color.zero_add_left,
    Color.mul_one_right]

/-- Witness for the amended claim C4 at a concrete configuration with
dispersion minus 1 and configured depth complexity 7. -/
theorem negative_dispersion_collapses_to_pinhole_witness :
    rt4good.dispersion < 0 ∧ (traceRaysSetup rt4good).depthComplexity = 1 ∧
    castRayAtPoint (traceRaysSetup rt4good) (fun _ => 0) ⟨0, 0, 1⟩ =
      castRay (traceRaysSetup rt4good)
        ⟨rt4good.camera.position, Vector.mk 0 0 1 - rt4good.camera.position,
         rt4good.maxReflections, AIR_REFRACTIVE_INDEX⟩ :=
  ⟨by norm_num [rt4good],
   (negative_dispersion_collapses_to_pinhole rt4good (by norm_num [rt4good])).1,
   (negative_dispersion_collapses_to_pinhole rt4good (by norm_num [rt4good])).2
     (fun _ => 0) ⟨0, 0, 1⟩⟩

end RT

namespace RT

noncomputable section

def mat1 : Material := ⟨fun _ => ⟨1, 0, 0⟩, NOT_SHINY, NOT_REFLECTIVE, NOT_REFRACTIVE⟩

def ray1 : Ray := ⟨⟨0, 0, 5⟩, ⟨0, 0, -1⟩, 5, AIR_REFRACTIVE_INDEX⟩

def int1 : Intersection := ⟨true, 5, ⟨0, 0, 0⟩, ⟨0, 0, 1⟩, mat1, ray1⟩

def rt1 : RayTracer :=
  ⟨8, 8, 10, 1, cam0, 1, 1, 5, [], [⟨⟨0, 0, 1⟩, 1⟩, ⟨⟨0, 0, 1⟩, 2⟩]⟩

end

/-- Claim C1 evaluated at the failing input: a matte red surface facing two
unobstructed coincident lights of intensities 1 and 2.  The code multiplies
the whole accumulated diffuse color by each light intensity (RayTracer.cpp
line 188), yielding 4 in the red channel, while the per-light sum required by
the specification yields 3. -/
theorem diffuse_intensity_rescales_accumulator :
    getDiffuseAndSpecularLighting rt1 int1 ⟨1, 0, 0⟩ = ⟨4, 0, 0⟩ ∧
    diffuseLightingSpec rt1 int1 ⟨1, 0, 0⟩ = ⟨3, 0, 0⟩ := by
  constructor
  · norm_num [getDiffuseAndSpecularLighting, getSpecularLighting, isInShadow,
      isInShadowScan, rt1, int1, mat1, ray1, Vector.length, Vector.normalize,
      Real.sqrt_one]
  · norm_num [diffuseLightingSpec, isInShadow, isInShadowScan, rt1, int1, mat1,
      ray1, Vector.length, Vector.normalize, Real.sqrt_one]

end RT

namespace RT

noncomputable section

def whiteMat : Material := ⟨fun _ => ⟨1, 1, 1⟩, NOT_SHINY, NOT_REFLECTIVE, NOT_REFRACTIVE⟩

def obj2 : Object := ⟨fun r => ⟨true, 1, ⟨0, 0, 0⟩, ⟨0, 0, 1⟩, whiteMat, r⟩, fun _ => rfl⟩

def mat2 : Material := ⟨fun _ => ⟨1, 0, 0⟩, NOT_SHINY, 1 / 2, 3 / 2⟩

def ray2 : Ray := ⟨⟨0, 0, 1⟩, ⟨0, 0, -1⟩, 5, AIR_REFRACTIVE_INDEX⟩

def int2 : Intersection := ⟨true, 1, ⟨0, 0, 0⟩, ⟨0, 0, 1⟩, mat2, ray2⟩

def rt2 : RayTracer := ⟨8, 8, 10, 1, cam0, 1, 1, 5, [obj2], []⟩

def reflRay2 : Ray := ⟨⟨0, 0, 0⟩, ⟨0, 0, 1⟩, 4, AIR_REFRACTIVE_INDEX⟩

end

/-- Helper for claim C2: the Fresnel reflectance of the head-on air-to-glass
interface of the concrete scene is 1 over 25. -/
theorem getReflectance_int2 :
    getReflectance ⟨0, 0, 1⟩ ⟨0, 0, -1⟩ AIR_REFRACTIVE_INDEX (3 / 2) = 1 / 25 := by
  norm_num [getReflectance, AIR_REFRACTIVE_INDEX, Real.sqrt_one]

/-- Helper for claim C2: the matte white object of the concrete scene, hit by
the reflected ray, contributes no reflective or refractive light. -/
theorem getRRL_white :
    getReflectiveRefractiveLighting rt2 (obj2.intersect reflRay2) = ⟨0, 0, 0⟩ := by
  simp [getReflectiveRefractiveLighting, obj2, whiteMat]

/-- Helper for claim C2: the scene has no lights, so the white object gets no
diffuse or specular contribution. -/
theorem getDS_white :
    getDiffuseAndSpecularLighting rt2 (obj2.intersect reflRay2)
      ((obj2.intersect reflRay2).getColor) = ⟨0, 0, 0⟩ := by
  norm_num [getDiffuseAndSpecularLighting, rt2]

/-- Helper for claim C2: the closest intersection of the reflected ray is the
white object. -/
theorem getClosestIntersection_reflRay2 :
    getClosestIntersection rt2 reflRay2 = obj2.intersect reflRay2 := by
  simp only [getClosestIntersection, rt2, List.foldl_cons, List.foldl_nil]
  rw [if_pos]
  refine ⟨rfl, ?_⟩
  show (1 : ℝ) < noHitIntersection.distance
  norm_num [noHitIntersection, maxDouble]

/-- Helper for claim C2: the recursively traced reflected ray returns one
fifth in each channel, the ambient lighting of the white object. -/
theorem castRay_reflRay2 :
    castRay rt2 reflRay2 = ⟨1 / 5, 1 / 5, 1 / 5⟩ := by
  rw [castRay]
  simp only [getClosestIntersection_reflRay2]
  rw [dif_pos (show (obj2.intersect reflRay2).didIntersect = true from rfl)]
  rw [performLighting]
  simp only [getRRL_white, getDS_white]
  norm_num [getAmbientLighting, Intersection.getColor, obj2, whiteMat]

/-- Claim C2 evaluated at the failing input: a material with reflectivity one
half and refractive index three halves.  getReflectiveRefractiveLighting
scales the recursively traced color, one fifth per channel, by the stored
reflectivity (RayTracer.cpp line 265), producing one tenth per channel,
instead of by the computed Fresnel reflected fraction of 1 over 25, which
would produce 1 over 125 per channel. -/
theorem reflective_scaled_by_reflectivity_not_reflectance :
    getReflectiveRefractiveLighting rt2 int2 = ⟨1 / 10, 1 / 10, 1 / 10⟩ ∧
    castRay rt2 reflRay2 * getReflectance int2.normal int2.ray.direction
      AIR_REFRACTIVE_INDEX int2.material.refractiveIndex =
      ⟨1 / 125, 1 / 125, 1 / 125⟩ := by
  have hcast : castRay rt2 ⟨⟨0, 0, 0⟩, ⟨0, 0, 1⟩, 4, AIR_REFRACTIVE_INDEX⟩ =
      ⟨1 / 5, 1 / 5, 1 / 5⟩ := castRay_reflRay2
  constructor
  · simp only [getReflectiveRefractiveLighting, int2, mat2, ray2]
    rw [dif_neg (by norm_num [NOT_REFLECTIVE, NOT_REFRACTIVE])]
    norm_num [NOT_REFRACTIVE, getReflectance_int2, reflectVector, hcast]
  · rw [castRay_reflRay2]
    simp only [int2, mat2, ray2]
    rw [getReflectance_int2]
    norm_num

end RT
